import Mathlib

/-!
Shallow embedding of the `dm-api-python` client library
(`src/dm_api/security.py`, `src/dm_api/client.py`, `src/dm_api/ffi.py`,
`src/dm_api/constants.py`) and proofs about it.

Python dicts are modelled as insertion-ordered association lists
`List (String × Json)`; Python exceptions are modelled with `Except`;
external capabilities that the source consumes (the base64 decoder, the
asymmetric-signature verify primitive, the JSON parser used on response
bytes, the canonicalization oracle, the environment, the filesystem and
the native entry points) are parameters of the embedded functions.
-/

/-- JSON-compatible Python values (the value type of envelopes and
request option mappings). `obj` keeps dict insertion order. -/
inductive Json where
  | null : Json
  | bool : Bool → Json
  | int : Int → Json
  | str : String → Json
  | arr : List Json → Json
  | obj : List (String × Json) → Json
deriving Repr

/-- Python truthiness test (`if not signature: ...`) on a `Json` value. -/
def pyFalsy : Json → Bool
  | .null => true
  | .bool b => !b
  | .int n => n == 0
  | .str s => s == ""
  | .arr xs => xs.isEmpty
  | .obj kvs => kvs.isEmpty

/-- `d.get(k)` on a Python dict: value at the first matching key. -/
def dictGet : List (String × Json) → String → Option Json
  | [], _ => none
  | kv :: rest, k => if kv.1 = k then some kv.2 else dictGet rest k

/-- `d[k] = v` on a Python dict: overwrite the value in place if the key
is present, keeping its position, otherwise append the new pair. -/
def pySetItem : List (String × Json) → String → Json → List (String × Json)
  | [], k, v => [(k, v)]
  | kv :: rest, k, v =>
    if kv.1 = k then (k, v) :: rest else kv :: pySetItem rest k v

/-- Lower-case hex digit. -/
def hexDigit (n : Nat) : Char :=
  if n < 10 then Char.ofNat (48 + n) else Char.ofNat (87 + (n % 16))

/-- Four lower-case hex digits, as produced by Python's `\uXXXX` escapes. -/
def hex4 (n : Nat) : String :=
  String.mk [hexDigit (n / 4096 % 16), hexDigit (n / 256 % 16),
             hexDigit (n / 16 % 16), hexDigit (n % 16)]

/-- Escape one character the way `json.dumps` (default `ensure_ascii=True`)
does: short escapes for the usual control characters, `\uXXXX` (with
surrogate pairs beyond the BMP) for everything outside `0x20`–`0x7e`. -/
def jsonEscapeChar (c : Char) : String :=
  let n := c.toNat
  if c = '"' then "\\\""
  else if c = '\\' then "\\\\"
  else if n = 8 then "\\b"
  else if n = 9 then "\\t"
  else if n = 10 then "\\n"
  else if n = 12 then "\\f"
  else if n = 13 then "\\r"
  else if n < 32 then "\\u" ++ hex4 n
  else if n ≤ 126 then String.mk [c]
  else if n < 65536 then "\\u" ++ hex4 n
  else
    let m := n - 65536
    "\\u" ++ hex4 (55296 + m / 1024) ++ "\\u" ++ hex4 (56320 + m % 1024)

/-- `json.dumps` of a string value. -/
def jsonDumpStr (s : String) : String :=
  "\"" ++ String.join (s.toList.map jsonEscapeChar) ++ "\""

mutual

/-- `json.dumps(v, separators=(",", ":"))`: no whitespace, comma/colon
separators, dict keys in insertion order (`sort_keys` is not used). -/
def jsonDumps : Json → String
  | .null => "null"
  | .bool true => "true"
  | .bool false => "false"
  | .int n => toString n
  | .str s => jsonDumpStr s
  | .arr xs => "[" ++ jsonDumpsArr xs ++ "]"
  | .obj kvs => "\x7b" ++ jsonDumpsObj kvs ++ "\x7d"

/-- Comma-separated dump of a JSON array's elements. -/
def jsonDumpsArr : List Json → String
  | [] => ""
  | [x] => jsonDumps x
  | x :: y :: xs => jsonDumps x ++ "," ++ jsonDumpsArr (y :: xs)

/-- Comma-separated dump of a JSON object's `key:value` pairs. -/
def jsonDumpsObj : List (String × Json) → String
  | [] => ""
  | [kv] => jsonDumpStr kv.1 ++ ":" ++ jsonDumps kv.2
  | kv :: kv2 :: kvs =>
    jsonDumpStr kv.1 ++ ":" ++ jsonDumps kv.2 ++ "," ++ jsonDumpsObj (kv2 :: kvs)

end

/-- One character's UTF-8 bytes (each a `Nat < 256`), for `.encode("utf-8")`. -/
def utf8Char (c : Char) : List Nat :=
  let n := c.toNat
  if n < 128 then [n]
  else if n < 2048 then [192 + n / 64, 128 + n % 64]
  else if n < 65536 then [224 + n / 4096, 128 + n / 64 % 64, 128 + n % 64]
  else [240 + n / 262144, 128 + n / 4096 % 64, 128 + n / 64 % 64, 128 + n % 64]

/-- `s.encode("utf-8")` as a byte list. -/
def utf8Encode (s : String) : List Nat :=
  (s.toList.map utf8Char).flatten

/-- The `canonicalizer` callback passed to `check_signature`
(`Callable[[str], str]`): it may raise (`Except.error`), return `None`,
or return a string (possibly empty — both are falsy in the source's
`if not canonical` test). -/
def Canonicalizer : Type := String → Except Unit (Option String)

/-- The external `base64.b64decode` capability applied to the envelope's
`signature` value: raises on non-string input or malformed base64,
otherwise yields the signature bytes. -/
def B64Decoder : Type := Json → Except Unit (List Nat)

/-- The external `public_key.verify(sig, message, PKCS1v15, SHA256)`
capability: returns `()` on success and raises (`Except.error`) on any
mismatch. -/
def VerifyOracle : Type := List Nat → List Nat → Except Unit Unit

/-- The signable payload built by `check_signature`
(`src/dm_api/security.py` lines 27–28): the envelope's pairs with the
`signature` key dropped, then `payload["nonce_str"] = nonce`. -/
def signablePayload (data : List (String × Json)) (nonce : String) :
    List (String × Json) :=
  pySetItem (data.filter fun kv => kv.1 ≠ "signature") "nonce_str" (.str nonce)

/-- `SignatureVerifier.check_signature` (`src/dm_api/security.py` lines
15–43). The source wraps every step after the signature-presence test in
`try: ... except Exception: return False`; here each fallible step's
error branch returns `false` directly, which is the same collapse. -/
def check_signature (b64 : B64Decoder) (ver : VerifyOracle)
    (data : List (String × Json)) (nonce : String) (canon : Canonicalizer) :
    Bool :=
  match dictGet data "signature" with
  | none => false
  | some s =>
    if pyFalsy s then false
    else
      match b64 s with
      | .error _ => false
      | .ok sig =>
        match canon (jsonDumps (.obj (signablePayload data nonce))) with
        | .error _ => false
        | .ok none => false
        | .ok (some c) =>
          if c = "" then false
          else
            match ver sig (utf8Encode c) with
            | .error _ => false
            | .ok _ => true

/-- The pipe-dispatched native entry points of `src/dm_api/ffi.py`, with
the arguments the client passes them (`src/dm_api/client.py` lines
216–242). -/
inductive EntryCall where
  | checkForUpdates (req : String)
  | downloadUpdate (req : String)
  | getUpdateState
  | waitForUpdateStateChange (seq timeout : Int)
  | quitAndInstall (req : String)
deriving Repr, DecidableEq

/-- Observable native-side events of one client call: `DM_Connect` (with
the pipe name and whether it returned 0), the dispatched entry point, and
`DM_Close`. -/
inductive Ev where
  | connect (pipe : String) (ok : Bool)
  | dispatched (c : EntryCall)
  | close
deriving Repr, DecidableEq

/-- A returned response handle: `none` for a NULL pointer, otherwise the
C-string bytes behind it (as a string). -/
def Ptr : Type := Option String

/-- The external `json.loads` capability: parse failure raises. -/
def JsonLoads : Type := String → Except Unit Json

/-- `DmApiFFI.ptr_to_json` (`src/dm_api/ffi.py` lines 108–117): NULL
pointer or empty bytes give `None`; otherwise `json.loads(raw)`, whose
exception propagates (the `finally` only frees the C string). -/
def ptr_to_json (parse : JsonLoads) (ptr : Ptr) : Except Unit (Option Json) :=
  match ptr with
  | none => .ok none
  | some raw => if raw = "" then .ok none else (parse raw).map some

/-- `resp.get("data") if isinstance(resp, dict) else None`
(`src/dm_api/client.py` line 84). -/
def respData : Option Json → Option Json
  | some (.obj kvs) => dictGet kvs "data"
  | _ => none

/-- `DmApi._call_pipe_json` (`src/dm_api/client.py` lines 76–87),
instrumented with the event trace. `pipeEnv` is `os.environ.get("DM_PIPE")`,
`connectStatus` the value `DM_Connect` returns, `dispatch` the native
entry point (which may raise). The `try/finally` closes the connection on
every exit path; an exception from the body still propagates. -/
def call_pipe_json (pipeEnv : Option String) (connectStatus : Int)
    (parse : JsonLoads) (dispatch : EntryCall → Except Unit Ptr)
    (c : EntryCall) : Except Unit (Option Json) × List Ev :=
  match pipeEnv with
  | none => (.ok none, [])
  | some p =>
    if p = "" then (.ok none, [])
    else if connectStatus ≠ 0 then (.ok none, [.connect p false])
    else
      match dispatch c with
      | .error e => (.error e, [.connect p true, .dispatched c, .close])
      | .ok ptr =>
        match ptr_to_json parse ptr with
        | .error e => (.error e, [.connect p true, .dispatched c, .close])
        | .ok resp => (.ok (respData resp), [.connect p true, .dispatched c, .close])

/-- `DmApi._call_pipe_bool` (`src/dm_api/client.py` lines 88–97): same
lifecycle, the entry point returns an int status and the result is
`status == 1`. -/
def call_pipe_bool (pipeEnv : Option String) (connectStatus : Int)
    (dispatch : EntryCall → Except Unit Int) (c : EntryCall) :
    Except Unit Bool × List Ev :=
  match pipeEnv with
  | none => (.ok false, [])
  | some p =>
    if p = "" then (.ok false, [])
    else if connectStatus ≠ 0 then (.ok false, [.connect p false])
    else
      match dispatch c with
      | .error e => (.error e, [.connect p true, .dispatched c, .close])
      | .ok v => (.ok (v == 1), [.connect p true, .dispatched c, .close])

/-- `DmApi.wait_for_update_state_change` (`src/dm_api/client.py` lines
227–238): clamp both arguments with `max(0, ...)` and dispatch
`DM_WaitForUpdateStateChange(sequence, timeout)` through the pipe. -/
def wait_for_update_state_change (pipeEnv : Option String)
    (connectStatus : Int) (parse : JsonLoads)
    (dispatch : EntryCall → Except Unit Ptr)
    (last_sequence : Int) (timeout_ms : Int) :
    Except Unit (Option Json) × List Ev :=
  let sequence := max 0 last_sequence
  let timeout := max 0 timeout_ms
  call_pipe_json pipeEnv connectStatus parse dispatch
    (.waitForUpdateStateChange sequence timeout)

/-- One pipe-dispatched client call, with everything its behavior depends
on (environment, native connect status, parser, entry point). -/
inductive CallSpec where
  | jsonCall (pipeEnv : Option String) (connectStatus : Int)
      (parse : JsonLoads) (dispatch : EntryCall → Except Unit Ptr)
      (c : EntryCall)
  | boolCall (pipeEnv : Option String) (connectStatus : Int)
      (dispatch : EntryCall → Except Unit Int) (c : EntryCall)

/-- The event trace of one call. -/
def runCall : CallSpec → List Ev
  | .jsonCall pipeEnv st parse dispatch c =>
    (call_pipe_json pipeEnv st parse dispatch c).2
  | .boolCall pipeEnv st dispatch c =>
    (call_pipe_bool pipeEnv st dispatch c).2

/-- The concatenated event trace of a sequence of calls. -/
def runCalls (specs : List CallSpec) : List Ev :=
  (specs.map runCall).flatten

/-- Number of successful opens (`DM_Connect` returning 0) in a trace. -/
def countOpens (evs : List Ev) : Nat :=
  (evs.filter fun e => match e with | .connect _ ok => ok | _ => false).length

/-- Number of `DM_Close` calls in a trace. -/
def countCloses (evs : List Ev) : Nat :=
  (evs.filter fun e => match e with | .close => true | _ => false).length

/-- `constants.DEV_LICENSE_ERROR` (`src/dm_api/constants.py`). -/
def DEV_LICENSE_ERROR : String :=
  "Development license is missing or corrupted. Run `distromate sdk renew` to regenerate the dev certificate."

/-- The `RuntimeError` message for a missing app identity
(`src/dm_api/client.py` lines 45–48). -/
def APP_IDENTITY_ERROR : String :=
  "App identity is required for dev-license checks. Provide app_id/public_key or set DM_APP_ID and DM_PUBLIC_KEY."

/-- Python `a or b` on optional strings: `a` when it is truthy
(present and non-empty), otherwise `b`. -/
def pyOr (a b : Option String) : Option String :=
  match a with
  | some s => if s = "" then b else some s
  | none => b

/-- Python `str.strip()` whitespace set (the ASCII part). -/
def isPySpace (c : Char) : Bool :=
  c = ' ' || c = '\t' || c = '\n' || c = '\r' ||
  c = Char.ofNat 11 || c = Char.ofNat 12

/-- Python `s.strip()`: drop whitespace from both ends. -/
def pyStrip (s : String) : String :=
  String.mk (((s.toList.dropWhile isPySpace).reverse.dropWhile isPySpace).reverse)

/-- Truthiness of an `os.environ.get` result. -/
def envTruthy : Option String → Bool
  | none => false
  | some s => s ≠ ""

/-- The pinned-pubkey path `Path.home()/".distromate-cli"/"dev_licenses"/str(app_id)/"pubkey"`
(`src/dm_api/client.py` lines 50–52). -/
def pubkeyPath (home : String) (appId : String) : String :=
  home ++ "/.distromate-cli/dev_licenses/" ++ appId ++ "/pubkey"

/-- `DmApi.should_skip_check` (`src/dm_api/client.py` lines 34–61),
instrumented with the list of files read. `dmPipe`/`dmApiPath`/
`dmAppId`/`dmPublicKey` are the four environment variables, `fs` the
filesystem (`none` models any `read_text` failure). A raised
`RuntimeError` is `Except.error` carrying its message. -/
def should_skip_check (dmPipe dmApiPath dmAppId dmPublicKey : Option String)
    (home : String) (fs : String → Option String)
    (app_id public_key : Option String) : Except String Bool × List String :=
  if envTruthy dmPipe && envTruthy dmApiPath then (.ok false, [])
  else
    match pyOr app_id dmAppId, pyOr public_key dmPublicKey with
    | some aid, some pk =>
      if aid = "" || pk = "" then (.error APP_IDENTITY_ERROR, [])
      else
        let path := pubkeyPath home aid
        match fs path with
        | none => (.error DEV_LICENSE_ERROR, [path])
        | some content =>
          let dev_pub_key := pyStrip content
          if dev_pub_key = "" || dev_pub_key ≠ pyStrip pk then
            (.error DEV_LICENSE_ERROR, [path])
          else (.ok true, [path])
    | _, _ => (.error APP_IDENTITY_ERROR, [])

/-- C1: `SignatureVerifier.check_signature` is a Boolean predicate that
never raises: it returns `true` exactly when every step succeeds (truthy
`signature` field, base64 decode, canonicalizer returning a non-empty
string without raising, signature verification), so any failure at any
step — absent signature, malformed base64, a raising canonicalizer, an
empty/`None` canonicalization result, or a signature/digest mismatch —
yields the value `false`. -/
theorem check_signature_true_iff (b64 : B64Decoder) (ver : VerifyOracle)
    (data : List (String × Json)) (nonce : String) (canon : Canonicalizer) :
    check_signature b64 ver data nonce canon = true ↔
      ∃ s sig c, dictGet data "signature" = some s ∧ pyFalsy s = false ∧
        b64 s = .ok sig ∧
        canon (jsonDumps (.obj (signablePayload data nonce))) = .ok (some c) ∧
        c ≠ "" ∧ ver sig (utf8Encode c) = .ok () := by
  constructor
  · intro h
    unfold check_signature at h
    split at h
    · simp at h
    next s hs =>
      split at h
      · simp at h
      next hf =>
        split at h
        · simp at h
        next sig hb =>
          split at h
          · simp at h
          · simp at h
          next c hc =>
            split at h
            · simp at h
            next hcne =>
              split at h
              · simp at h
              next u hv =>
                exact ⟨s, sig, c, hs, by simpa using hf, hb, hc, hcne,
                  by cases u; exact hv⟩
  · rintro ⟨s, sig, c, hs, hf, hb, hc, hcne, hv⟩
    unfold check_signature
    rw [hs]
    simp [hf, hb, hc, hcne, hv]

theorem dictGet_pySetItem (l : List (String × Json)) (k : String) (v : Json)
    (k' : String) :
    dictGet (pySetItem l k v) k' = if k' = k then some v else dictGet l k' := by
  induction l with
  | nil =>
    by_cases h : k' = k
    · subst h; simp [pySetItem, dictGet]
    · simp [pySetItem, dictGet, h, Ne.symm h]
  | cons kv rest ih =>
    by_cases hk : kv.1 = k
    · by_cases h : k' = k
      · subst h; simp [pySetItem, dictGet, hk]
      · simp [pySetItem, dictGet, hk, h, Ne.symm h]
    · by_cases h2 : kv.1 = k'
      · have : ¬ k' = k := fun hh => hk (hh ▸ h2)
        simp [pySetItem, dictGet, hk, h2, this]
      · simp [pySetItem, dictGet, hk, h2, ih]

theorem dictGet_filter_of_mem (l : List (String × Json))
    (q : String × Json → Bool) (k : String)
    (hq : ∀ kv : String × Json, kv.1 = k → q kv = true) :
    dictGet (l.filter q) k = dictGet l k := by
  induction l with
  | nil => rfl
  | cons kv rest ih =>
    by_cases hk : kv.1 = k
    · simp [List.filter, hq kv hk, dictGet, hk]
    · by_cases hf : q kv <;> simp [List.filter, hf, dictGet, hk, ih]

theorem dictGet_filter_of_excl (l : List (String × Json))
    (q : String × Json → Bool) (k : String)
    (hq : ∀ kv : String × Json, kv.1 = k → q kv = false) :
    dictGet (l.filter q) k = none := by
  induction l with
  | nil => rfl
  | cons kv rest ih =>
    by_cases hk : kv.1 = k
    · simp [List.filter, hq kv hk, ih]
    · by_cases hf : q kv <;> simp [List.filter, hf, dictGet, hk, ih]

/-- C2: whenever `check_signature` reaches the verify step, the byte
string it verifies the signature over is exactly the UTF-8 encoding of
the canonicalization oracle's output on the JSON encoding (comma/colon
separators, no whitespace) of the envelope's field mapping with
`signature` removed and `nonce_str` set to the nonce. -/
theorem check_signature_verified_bytes (b64 : B64Decoder) (ver : VerifyOracle)
    (data : List (String × Json)) (nonce : String) (canon : Canonicalizer)
    (s : Json) (sig : List Nat) (c : String)
    (h1 : dictGet data "signature" = some s) (h2 : pyFalsy s = false)
    (h3 : b64 s = .ok sig)
    (h4 : canon (jsonDumps (.obj (signablePayload data nonce))) = .ok (some c))
    (h5 : c ≠ "") :
    check_signature b64 ver data nonce canon = true ↔
      ver sig (utf8Encode c) = .ok () := by
  unfold check_signature
  rw [h1]
  simp only [h2, h3, h4, h5, Bool.false_eq_true, if_false, ite_false]
  cases hv : ver sig (utf8Encode c) with
  | error e => simp [hv]
  | ok u => cases u; simp [hv]

/-- C10 (amended): for two envelopes identical except for the presence or
value of a `nonce_str` key, the signable payloads are equal as key-value
maps — the injected `nonce_str` overwrites any pre-existing one, so an
envelope cannot pre-bind its own nonce — and `check_signature` returns
the same result whenever the canonicalizer gives equal output on the two
serialized payloads (as a key-order-independent canonicalization oracle
does). The unamended claim fails only because `json.dumps` keeps dict
insertion order, so an order-sensitive canonicalizer can distinguish the
two payloads (see the counterexample). -/
theorem check_signature_nonce_overwrite (b64 : B64Decoder) (ver : VerifyOracle)
    (data₁ data₂ : List (String × Json)) (nonce : String) (canon : Canonicalizer)
    (hrest : data₁.filter (fun kv => kv.1 ≠ "nonce_str") =
             data₂.filter (fun kv => kv.1 ≠ "nonce_str"))
    (hcanon : canon (jsonDumps (.obj (signablePayload data₁ nonce))) =
              canon (jsonDumps (.obj (signablePayload data₂ nonce)))) :
    (∀ k, dictGet (signablePayload data₁ nonce) k =
          dictGet (signablePayload data₂ nonce) k) ∧
    check_signature b64 ver data₁ nonce canon =
      check_signature b64 ver data₂ nonce canon := by
  have hget : ∀ k, k ≠ "nonce_str" → dictGet data₁ k = dictGet data₂ k := by
    intro k hk
    rw [← dictGet_filter_of_mem data₁ (fun kv => kv.1 ≠ "nonce_str") k
          (by intro kv h; simp [h, hk]),
        ← dictGet_filter_of_mem data₂ (fun kv => kv.1 ≠ "nonce_str") k
          (by intro kv h; simp [h, hk]),
        hrest]
  constructor
  · intro k
    unfold signablePayload
    rw [dictGet_pySetItem, dictGet_pySetItem]
    by_cases hk : k = "nonce_str"
    · simp [hk]
    · simp only [hk, if_false]
      by_cases hs : k = "signature"
      · subst hs
        rw [dictGet_filter_of_excl _ _ _ (by intro kv h; simp [h]),
            dictGet_filter_of_excl _ _ _ (by intro kv h; simp [h])]
      · rw [dictGet_filter_of_mem _ _ _ (by intro kv h; simp [h, hs]),
            dictGet_filter_of_mem _ _ _ (by intro kv h; simp [h, hs])]
        exact hget k hk
  · have hsig : dictGet data₁ "signature" = dictGet data₂ "signature" :=
      hget "signature" (by decide)
    unfold check_signature
    rw [hsig]
    simp only [hcanon]

theorem call_pipe_json_trace (p : String) (parse : JsonLoads)
    (dispatch : EntryCall → Except Unit Ptr) (c : EntryCall) (hp : p ≠ "") :
    (call_pipe_json (some p) 0 parse dispatch c).2 =
      [.connect p true, .dispatched c, .close] := by
  cases hd : dispatch c with
  | error e => simp [call_pipe_json, hp, hd]
  | ok ptr =>
    cases hj : ptr_to_json parse ptr with
    | error e => simp [call_pipe_json, hp, hd, hj]
    | ok resp => simp [call_pipe_json, hp, hd, hj]

theorem call_pipe_bool_trace (p : String)
    (dispatch : EntryCall → Except Unit Int) (c : EntryCall) (hp : p ≠ "") :
    (call_pipe_bool (some p) 0 dispatch c).2 =
      [.connect p true, .dispatched c, .close] := by
  cases hd : dispatch c with
  | error e => simp [call_pipe_bool, hp, hd]
  | ok v => simp [call_pipe_bool, hp, hd]

theorem countOpens_append (a b : List Ev) :
    countOpens (a ++ b) = countOpens a + countOpens b := by
  simp [countOpens, List.filter_append]

theorem countCloses_append (a b : List Ev) :
    countCloses (a ++ b) = countCloses a + countCloses b := by
  simp [countCloses, List.filter_append]

theorem runCall_opens_eq_closes (s : CallSpec) :
    countOpens (runCall s) = countCloses (runCall s) := by
  cases s with
  | jsonCall pipeEnv st parse dispatch c =>
    cases pipeEnv with
    | none => rfl
    | some p =>
      by_cases hp : p = ""
      · simp [runCall, call_pipe_json, hp, countOpens, countCloses]
      · by_cases hst : st = 0
        · subst hst
          rw [runCall, call_pipe_json_trace p parse dispatch c hp]
          rfl
        · simp [runCall, call_pipe_json, hp, hst, countOpens, countCloses]
  | boolCall pipeEnv st dispatch c =>
    cases pipeEnv with
    | none => rfl
    | some p =>
      by_cases hp : p = ""
      · simp [runCall, call_pipe_bool, hp, countOpens, countCloses]
      · by_cases hst : st = 0
        · subst hst
          rw [runCall, call_pipe_bool_trace p dispatch c hp]
          rfl
        · simp [runCall, call_pipe_bool, hp, hst, countOpens, countCloses]

/-- C3: for pipe-dispatched operations, after any sequence of calls the
number of successful opens equals the number of closes; if the connect
step fails the entry point is never invoked (the trace holds only the
failed connect) and the call returns the failure outcome; and if connect
succeeds, `DM_Close` is invoked on every exit path, whether the
dispatched entry point returns normally or raises. -/
theorem session_open_close_balanced :
    (∀ specs : List CallSpec,
        countOpens (runCalls specs) = countCloses (runCalls specs)) ∧
    (∀ (p : String) (st : Int) (parse : JsonLoads)
        (dispatch : EntryCall → Except Unit Ptr)
        (dispatchB : EntryCall → Except Unit Int) (c : EntryCall),
        p ≠ "" → st ≠ 0 →
        call_pipe_json (some p) st parse dispatch c =
          (.ok none, [.connect p false]) ∧
        call_pipe_bool (some p) st dispatchB c =
          (.ok false, [.connect p false])) ∧
    (∀ (p : String) (parse : JsonLoads)
        (dispatch : EntryCall → Except Unit Ptr)
        (dispatchB : EntryCall → Except Unit Int) (c : EntryCall),
        p ≠ "" →
        (call_pipe_json (some p) 0 parse dispatch c).2 =
          [.connect p true, .dispatched c, .close] ∧
        (call_pipe_bool (some p) 0 dispatchB c).2 =
          [.connect p true, .dispatched c, .close]) := by
  refine ⟨?_, ?_, ?_⟩
  · intro specs
    induction specs with
    | nil => rfl
    | cons s rest ih =>
      have hc : runCalls (s :: rest) = runCall s ++ runCalls rest := by
        simp [runCalls]
      rw [hc, countOpens_append, countCloses_append,
          runCall_opens_eq_closes s, ih]
  · intro p st parse dispatch dispatchB c hp hst
    exact ⟨by simp [call_pipe_json, hp, hst], by simp [call_pipe_bool, hp, hst]⟩
  · intro p parse dispatch dispatchB c hp
    exact ⟨call_pipe_json_trace p parse dispatch c hp,
           call_pipe_bool_trace p dispatchB c hp⟩

/-- C4 (amended): for a pipe-dispatched JSON operation, if the response
bytes fail to parse as JSON the `json.loads` exception propagates to the
caller (the connection is still closed on the way out); if the bytes
parse to a value that is not a JSON object the call returns the
"no result" outcome `none`; and for an object envelope it returns the
envelope's `data` field. The unamended claim fails on the unparseable
case: the code does not catch the parse exception (see the
counterexample). -/
theorem call_pipe_json_malformed_response (p : String) (parse : JsonLoads)
    (dispatch : EntryCall → Except Unit Ptr) (c : EntryCall) (raw : String)
    (hp : p ≠ "") (hd : dispatch c = .ok (some raw)) (hraw : raw ≠ "") :
    (parse raw = .error () →
      call_pipe_json (some p) 0 parse dispatch c =
        (.error (), [.connect p true, .dispatched c, .close])) ∧
    (∀ j, parse raw = .ok j → (∀ kvs, j ≠ .obj kvs) →
      (call_pipe_json (some p) 0 parse dispatch c).1 = .ok none) ∧
    (∀ kvs, parse raw = .ok (.obj kvs) →
      (call_pipe_json (some p) 0 parse dispatch c).1 =
        .ok (dictGet kvs "data")) := by
  refine ⟨?_, ?_, ?_⟩
  · intro hparse
    simp [call_pipe_json, hp, hd, ptr_to_json, hraw, hparse, Except.map]
  · intro j hparse hobj
    have hrd : respData (some j) = none := by
      cases j <;> first | rfl | exact absurd rfl (hobj _)
    simp [call_pipe_json, hp, hd, ptr_to_json, hraw, hparse, Except.map, hrd]
  · intro kvs hparse
    simp [call_pipe_json, hp, hd, ptr_to_json, hraw, hparse, Except.map, respData]

/-- C8: if the `DM_PIPE` environment variable is unset or empty, both
pipe dispatchers return their cheap no-result outcome (`None` for JSON
calls, `False` for boolean calls) with an empty event trace — in
particular `DM_Connect` is never invoked. -/
theorem call_pipe_no_endpoint (pipeEnv : Option String) (st : Int)
    (parse : JsonLoads) (dispatch : EntryCall → Except Unit Ptr)
    (dispatchB : EntryCall → Except Unit Int) (c : EntryCall)
    (h : pipeEnv = none ∨ pipeEnv = some "") :
    call_pipe_json pipeEnv st parse dispatch c = (.ok none, []) ∧
    call_pipe_bool pipeEnv st dispatchB c = (.ok false, []) := by
  rcases h with h | h <;> subst h <;> exact ⟨rfl, rfl⟩

/-- C9: `wait_for_update_state_change` clamps negative inputs to zero
before dispatching: the entry call recorded in the trace carries exactly
`max 0 last_sequence` and `max 0 timeout_ms` (both non-negative), and the
whole call equals `_call_pipe_json` at those clamped arguments. -/
theorem wait_clamps (p : String) (parse : JsonLoads)
    (dispatch : EntryCall → Except Unit Ptr) (ls tm : Int) (hp : p ≠ "") :
    (wait_for_update_state_change (some p) 0 parse dispatch ls tm).2 =
      [.connect p true,
       .dispatched (.waitForUpdateStateChange (max 0 ls) (max 0 tm)), .close] ∧
    0 ≤ max 0 ls ∧ 0 ≤ max 0 tm ∧
    wait_for_update_state_change (some p) 0 parse dispatch ls tm =
      call_pipe_json (some p) 0 parse dispatch
        (.waitForUpdateStateChange (max 0 ls) (max 0 tm)) := by
  refine ⟨?_, le_max_left 0 ls, le_max_left 0 tm, rfl⟩
  exact call_pipe_json_trace p parse dispatch _ hp

/-- C5: when both `DM_PIPE` and `DM_API_PATH` are set and non-empty,
`should_skip_check` returns `false` immediately — no exception, no file
read (the read trace is empty) — even when `app_id` and `public_key` are
absent. -/
theorem should_skip_check_remote_mandatory
    (dmPipe dmApiPath dmAppId dmPublicKey : Option String)
    (home : String) (fs : String → Option String)
    (app_id public_key : Option String)
    (h1 : envTruthy dmPipe = true) (h2 : envTruthy dmApiPath = true) :
    should_skip_check dmPipe dmApiPath dmAppId dmPublicKey home fs
      app_id public_key = (.ok false, []) := by
  simp [should_skip_check, h1, h2]

/-- C6: in dev mode (the remote pair not both set) with a non-empty
`app_id` and `public_key` supplied, `should_skip_check` returns `true`
exactly when the whitespace-trimmed content of the pinned pubkey file is
non-empty and equals the whitespace-trimmed provided key; an empty stored
value or a mismatch yields the single fatal dev-license error. The
witness instantiates the spec scenario where the stored key carries a
trailing newline. -/
theorem should_skip_check_dev_match
    (dmPipe dmApiPath dmAppId dmPublicKey : Option String)
    (home : String) (fs : String → Option String) (aid pk : String)
    (henv : (envTruthy dmPipe && envTruthy dmApiPath) = false)
    (haid : aid ≠ "") (hpk : pk ≠ "") :
    ((should_skip_check dmPipe dmApiPath dmAppId dmPublicKey home fs
        (some aid) (some pk)).1 = .ok true ↔
      (∃ content, fs (pubkeyPath home aid) = some content ∧
        pyStrip content ≠ "" ∧ pyStrip content = pyStrip pk)) ∧
    (∀ content, fs (pubkeyPath home aid) = some content →
      (pyStrip content = "" ∨ pyStrip content ≠ pyStrip pk) →
      (should_skip_check dmPipe dmApiPath dmAppId dmPublicKey home fs
        (some aid) (some pk)).1 = .error DEV_LICENSE_ERROR) := by
  constructor
  · constructor
    · intro h
      cases hf : fs (pubkeyPath home aid) with
      | none => simp [should_skip_check, henv, pyOr, haid, hpk, hf] at h
      | some content =>
        by_cases h1 : pyStrip content = ""
        · simp [should_skip_check, henv, pyOr, haid, hpk, hf, h1] at h
        · by_cases h2 : pyStrip content = pyStrip pk
          · exact ⟨content, rfl, h1, h2⟩
          · simp [should_skip_check, henv, pyOr, haid, hpk, hf, h1, h2] at h
    · rintro ⟨content, hf, hne, heq⟩
      have hpkne : pyStrip pk ≠ "" := heq ▸ hne
      simp [should_skip_check, henv, pyOr, haid, hpk, hf, hne, heq, hpkne]
  · intro content hf hcond
    rcases hcond with h1 | h1 <;>
      simp [should_skip_check, henv, pyOr, haid, hpk, hf, h1]

/-- C7: in dev mode, if the resolved `app_id` or the resolved
`public_key` is absent or empty, `should_skip_check` raises the fatal
configuration error — whose message differs from the dev-license error —
and reads no certificate file (empty read trace). -/
theorem should_skip_check_missing_identity
    (dmPipe dmApiPath dmAppId dmPublicKey : Option String)
    (home : String) (fs : String → Option String)
    (app_id public_key : Option String)
    (henv : (envTruthy dmPipe && envTruthy dmApiPath) = false)
    (hmiss : pyOr app_id dmAppId = none ∨ pyOr app_id dmAppId = some "" ∨
      pyOr public_key dmPublicKey = none ∨
      pyOr public_key dmPublicKey = some "") :
    should_skip_check dmPipe dmApiPath dmAppId dmPublicKey home fs
      app_id public_key = (.error APP_IDENTITY_ERROR, []) ∧
    APP_IDENTITY_ERROR ≠ DEV_LICENSE_ERROR := by
  refine ⟨?_, by decide⟩
  simp only [should_skip_check, henv, Bool.false_eq_true, if_false]
  cases ha : pyOr app_id dmAppId with
  | none => cases hb : pyOr public_key dmPublicKey <;> rfl
  | some aid =>
    cases hb : pyOr public_key dmPublicKey with
    | none => rfl
    | some pk =>
      have hor : aid = "" ∨ pk = "" := by
        rcases hmiss with h | h | h | h
        · rw [ha] at h; exact absurd h (by simp)
        · rw [ha] at h; simp at h; exact Or.inl h
        · rw [hb] at h; exact absurd h (by simp)
        · rw [hb] at h; simp at h; exact Or.inr h
      rcases hor with h | h <;> simp [h]

theorem check_signature_verified_bytes_witness :
    dictGet [("data", Json.int 1), ("signature", Json.str "c2ln")] "signature" =
      some (Json.str "c2ln") ∧
    check_signature (fun _ => Except.ok [7]) (fun _ _ => Except.ok ())
      [("data", Json.int 1), ("signature", Json.str "c2ln")] "n1"
      (fun s => Except.ok (some s)) = true :=
  ⟨rfl, (check_signature_verified_bytes (fun _ => Except.ok [7])
      (fun _ _ => Except.ok ())
      [("data", Json.int 1), ("signature", Json.str "c2ln")] "n1"
      (fun s => Except.ok (some s)) (Json.str "c2ln") [7]
      (jsonDumps (Json.obj (signablePayload
        [("data", Json.int 1), ("signature", Json.str "c2ln")] "n1")))
      rfl rfl rfl rfl (by decide)).mpr rfl⟩

theorem session_open_close_balanced_witness :
    countOpens (runCalls
      [CallSpec.jsonCall (some "p") 0 (fun _ => Except.error ())
        (fun _ => Except.error ()) .getUpdateState,
       CallSpec.boolCall none 0 (fun _ => Except.ok 1) .getUpdateState]) =
    countCloses (runCalls
      [CallSpec.jsonCall (some "p") 0 (fun _ => Except.error ())
        (fun _ => Except.error ()) .getUpdateState,
       CallSpec.boolCall none 0 (fun _ => Except.ok 1) .getUpdateState]) ∧
    call_pipe_json (some "p") 1 (fun _ => Except.ok Json.null)
      (fun _ => Except.ok none) .getUpdateState =
      (.ok none, [.connect "p" false]) ∧
    (call_pipe_bool (some "p") 0 (fun _ => Except.error ())
      .getUpdateState).2 =
      [.connect "p" true, .dispatched .getUpdateState, .close] := by
  have h := session_open_close_balanced
  refine ⟨h.1 _, ?_, ?_⟩
  · exact (h.2.1 "p" 1 (fun _ => Except.ok Json.null)
      (fun _ => Except.ok none) (fun _ => Except.ok 0) .getUpdateState
      (by decide) (by decide)).1
  · exact (h.2.2 "p" (fun _ => Except.ok Json.null)
      (fun _ => Except.ok none) (fun _ => Except.error ()) .getUpdateState
      (by decide)).2

/-- C4 counterexample: with connected pipe and response bytes
`"not json"` on which the parser raises, `_call_pipe_json` propagates the
exception instead of returning the no-result outcome. -/
theorem call_pipe_json_unparseable_cex :
    (call_pipe_json (some "p") 0 (fun _ => Except.error ())
      (fun _ => Except.ok (some "not json")) .getUpdateState).1 =
      Except.error () ∧
    (call_pipe_json (some "p") 0 (fun _ => Except.error ())
      (fun _ => Except.ok (some "not json")) .getUpdateState).1 ≠
      Except.ok none := by
  refine ⟨rfl, ?_⟩
  intro h
  rw [show (call_pipe_json (some "p") 0 (fun _ => Except.error ())
      (fun _ => Except.ok (some "not json")) .getUpdateState).1 =
      Except.error () from rfl] at h
  exact Except.noConfusion h

theorem call_pipe_json_malformed_response_witness :
    ("p" ≠ "" ∧ ("3" : String) ≠ "") ∧
    (call_pipe_json (some "p") 0
      (fun r => if r = "3" then Except.ok (Json.int 3) else Except.error ())
      (fun _ => Except.ok (some "3")) .getUpdateState).1 = Except.ok none :=
  ⟨⟨by decide, by decide⟩,
    (call_pipe_json_malformed_response "p"
      (fun r => if r = "3" then Except.ok (Json.int 3) else Except.error ())
      (fun _ => Except.ok (some "3")) .getUpdateState "3"
      (by decide) rfl (by decide)).2.1 (Json.int 3) rfl
      (fun kvs h => Json.noConfusion h)⟩

theorem should_skip_check_remote_mandatory_witness :
    envTruthy (some "pipe") = true ∧ envTruthy (some "tok") = true ∧
    should_skip_check (some "pipe") (some "tok") none none "/h"
      (fun _ => none) none none = (.ok false, []) :=
  ⟨rfl, rfl, should_skip_check_remote_mandatory (some "pipe") (some "tok")
    none none "/h" (fun _ => none) none none rfl rfl⟩

theorem should_skip_check_dev_match_witness :
    ((envTruthy (none : Option String) &&
      envTruthy (none : Option String)) = false) ∧
    (should_skip_check none none none none "/h"
      (fun _ => some "ABC\n") (some "app1") (some "ABC")).1 = Except.ok true :=
  ⟨rfl, (should_skip_check_dev_match none none none none "/h"
      (fun _ => some "ABC\n") "app1" "ABC" rfl (by decide) (by decide)).1.mpr
      ⟨"ABC\n", rfl, by decide, by decide⟩⟩

theorem should_skip_check_missing_identity_witness :
    (pyOr none none = none ∨ pyOr none none = some "" ∨
      pyOr (none : Option String) (none : Option String) = none ∨
      pyOr (none : Option String) (none : Option String) = some "") ∧
    should_skip_check none none none none "/h" (fun _ => some "ABC")
      none none = (.error APP_IDENTITY_ERROR, []) ∧
    APP_IDENTITY_ERROR ≠ DEV_LICENSE_ERROR :=
  have h := should_skip_check_missing_identity none none none none "/h"
    (fun _ => some "ABC") none none rfl (Or.inl rfl)
  ⟨Or.inl rfl, h.1, h.2⟩

theorem call_pipe_no_endpoint_witness :
    call_pipe_json none 0 (fun _ => Except.ok Json.null)
      (fun _ => Except.ok none) .getUpdateState = (Except.ok none, []) ∧
    call_pipe_bool (some "") 0 (fun _ => Except.ok 1) .getUpdateState =
      (Except.ok false, []) :=
  ⟨(call_pipe_no_endpoint none 0 (fun _ => Except.ok Json.null)
      (fun _ => Except.ok none) (fun _ => Except.ok 1) .getUpdateState
      (Or.inl rfl)).1,
   (call_pipe_no_endpoint (some "") 0 (fun _ => Except.ok Json.null)
      (fun _ => Except.ok none) (fun _ => Except.ok 1) .getUpdateState
      (Or.inr rfl)).2⟩

theorem wait_clamps_witness :
    ("p" ≠ "") ∧
    (wait_for_update_state_change (some "p") 0 (fun _ => Except.ok Json.null)
      (fun _ => Except.ok none) (-5) (-7)).2 =
      [.connect "p" true, .dispatched (.waitForUpdateStateChange 0 0),
       .close] := by
  refine ⟨by decide, ?_⟩
  have h := (wait_clamps "p" (fun _ => Except.ok Json.null)
    (fun _ => Except.ok none) (-5) (-7) (by decide)).1
  have h5 : max 0 (-5 : Int) = 0 := by decide
  have h7 : max 0 (-7 : Int) = 0 := by decide
  rw [h5, h7] at h
  exact h

/-- C10 counterexample: two envelopes identical except for the presence
of a `nonce_str` key, same signature, same nonce, same (order-sensitive)
canonicalizer — `check_signature` verifies one and rejects the other,
because the pre-existing `nonce_str` keeps its dict position and changes
the `json.dumps` serialization handed to the canonicalizer. -/
theorem check_signature_nonce_presence_cex :
    check_signature (fun _ => Except.ok [0])
      (fun _ msg =>
        if msg = utf8Encode "\x7b\"a\":1,\"nonce_str\":\"n\"\x7d"
        then Except.ok () else Except.error ())
      [("a", Json.int 1), ("signature", Json.str "AA==")] "n"
      (fun s => Except.ok (some s)) = true ∧
    check_signature (fun _ => Except.ok [0])
      (fun _ msg =>
        if msg = utf8Encode "\x7b\"a\":1,\"nonce_str\":\"n\"\x7d"
        then Except.ok () else Except.error ())
      [("nonce_str", Json.str "z"), ("a", Json.int 1),
       ("signature", Json.str "AA==")] "n"
      (fun s => Except.ok (some s)) = false := by
  constructor <;> rfl

theorem check_signature_nonce_overwrite_witness :
    ([("nonce_str", Json.str "old"), ("x", Json.int 2),
        ("signature", Json.str "sig")].filter
          (fun kv => kv.1 ≠ "nonce_str") =
      [("x", Json.int 2), ("signature", Json.str "sig"),
        ("nonce_str", Json.str "other")].filter
          (fun kv => kv.1 ≠ "nonce_str")) ∧
    dictGet (signablePayload [("nonce_str", Json.str "old"),
        ("x", Json.int 2), ("signature", Json.str "sig")] "n") "nonce_str" =
      dictGet (signablePayload [("x", Json.int 2),
        ("signature", Json.str "sig"),
        ("nonce_str", Json.str "other")] "n") "nonce_str" ∧
    check_signature (fun _ => Except.ok []) (fun _ _ => Except.ok ())
      [("nonce_str", Json.str "old"), ("x", Json.int 2),
       ("signature", Json.str "sig")] "n"
      (fun _ => Except.ok (some "K")) =
    check_signature (fun _ => Except.ok []) (fun _ _ => Except.ok ())
      [("x", Json.int 2), ("signature", Json.str "sig"),
       ("nonce_str", Json.str "other")] "n"
      (fun _ => Except.ok (some "K")) := by
  have h := check_signature_nonce_overwrite (fun _ => Except.ok [])
    (fun _ _ => Except.ok ())
    [("nonce_str", Json.str "old"), ("x", Json.int 2),
     ("signature", Json.str "sig")]
    [("x", Json.int 2), ("signature", Json.str "sig"),
     ("nonce_str", Json.str "other")] "n"
    (fun _ => Except.ok (some "K")) rfl rfl
  exact ⟨rfl, h.1 "nonce_str", h.2⟩
